import Mathlib

/-!
Verification of the cvar repository (Rust): typed console variables with a
`Value` trait (`parse` / `validate`), an `Error` taxonomy, primitive
implementations for bool / String / integers / non-zero integers / floats,
a derive macro generating `Value` for unit enums, and an `Arc<RwLock<_>>`
shared container.

Strings are modelled as `List Char`.  Fallible Rust functions returning
`Result<T, Error>` are modelled as `Except Error T`; functions that can
additionally panic (a Rust `panic!` / failed slice index / `unreachable!`)
are modelled with the `PResult` type, whose `panic` constructor stands for
an abort.
-/

set_option autoImplicit false

abbrev Str := List Char

deriving instance DecidableEq for Except

/-- Rust `value.starts_with(pre)` on strings. -/
def strStartsWith (value pre : Str) : Bool :=
  pre.isPrefixOf value

/-- Rust `value.ends_with(suf)` on strings. -/
def strEndsWith (value suf : Str) : Bool :=
  suf.isSuffixOf value

/-- Rust `s.to_lowercase()`.  Modelled character-wise with ASCII lowering;
the Unicode special cases never produce any of the ASCII literals this
repository matches against, so the model agrees with Rust on every match
performed here. -/
def toLowercase (s : Str) : Str :=
  s.map Char.toLower

/-- The `Error` enum of src/src/lib.rs (lines 55-71).  All payloads are
display strings, as in the source. -/
inductive Error where
  | invalidValue (value : Str)
  | emptyValue
  | tooBig (value min max : Str)
  | tooSmall (value min max : Str)
deriving DecidableEq, Repr

/-- Result of a Rust function that may return `Ok`, return `Err`, or abort:
`panic` models a Rust panic (failed slice index, `unreachable!`). -/
inductive PResult (α : Type) where
  | ok (a : α)
  | err (e : Error)
  | panic
deriving DecidableEq, Repr

def PResult.map {α β : Type} (f : α → β) : PResult α → PResult β
  | .ok a => .ok (f a)
  | .err e => .err e
  | .panic => .panic

/-- `Error::invalid_value` (src/src/lib.rs lines 74-79). -/
def Error.invalid_value (value : Str) : Error :=
  .invalidValue value

/-- `impl Value for bool`, `parse` (src/src/lib.rs lines 118-128):
match `s.to_lowercase()` against the six literals in source arm order,
otherwise `Err(Error::invalid_value(s))`.  (The source lowercases once
and matches; repeating the pure call per arm is the same function.) -/
def boolParse (s : Str) : Except Error Bool :=
  if toLowercase s = ['t'] then .ok true
  else if toLowercase s = ['f'] then .ok false
  else if toLowercase s = ['t', 'r', 'u', 'e'] then .ok true
  else if toLowercase s = ['f', 'a', 'l', 's', 'e'] then .ok false
  else if toLowercase s = ['1'] then .ok true
  else if toLowercase s = ['0'] then .ok false
  else .error (Error.invalid_value s)

/-- The candidate-collecting loop shared by `bool::validate` and the derived
enum `validate` (src/src/lib.rs lines 133-139, src/proc/src/lib.rs lines
94-100): start from an empty vector and push every table entry that starts
with the queried prefix, in table order. -/
def pushMatching (table : List Str) (s : Str) : List Str :=
  table.foldl (fun values value =>
    if strStartsWith value s then values ++ [value] else values) []

/-- The candidate table of `bool::validate` (src/src/lib.rs line 131). -/
def boolValues : List Str :=
  [['t', 'r', 'u', 'e'], ['f', 'a', 'l', 's', 'e']]

/-- `impl Value for bool`, `validate` (src/src/lib.rs lines 130-142). -/
def boolValidate (s : Str) : Except Error (List Str) :=
  .ok (pushMatching boolValues s)

/-- `impl Value for String`, `parse` (src/src/lib.rs lines 146-152).
Rust slices `&s[1..s.len() - 1]`; when `s` is the one-byte string `"` the
range `1..0` is invalid and the slice panics, which the model renders as
`PResult.panic`.  Otherwise, inside the quoted branch the slice is the
string without its first and last character. -/
def stringParse (s : Str) : PResult Str :=
  if strStartsWith s ['\"'] ∧ strEndsWith s ['\"'] then
    if s.length < 2 then .panic
    else .ok ((s.drop 1).dropLast)
  else .err (Error.invalid_value s)

/-- `impl Value for String`, `validate` (src/src/lib.rs lines 154-160). -/
def stringValidate (s : Str) : Except Error (List Str) :=
  if strStartsWith s ['\"'] ∧ strEndsWith s ['\"'] then .ok []
  else .error (Error.invalid_value s)

/-- The kinds of `std::num::IntErrorKind` that integer parsing can report
today, plus `other`, which stands for any future kind of the
`#[non_exhaustive]` Rust enum (the `_` arm of `from_parse_int_error`). -/
inductive IntErrorKind where
  | empty
  | invalidDigit
  | posOverflow
  | negOverflow
  | zero
  | other
deriving DecidableEq, Repr

/-- `Error::from_parse_int_error` (src/src/lib.rs lines 99-108).  The `_`
arm of the source is `unreachable!(..)`, a panic, modelled as `none`. -/
def from_parse_int_error (k : IntErrorKind) (value min max : Str) :
    Option Error :=
  match k with
  | .empty => some .emptyValue
  | .invalidDigit => some (Error.invalid_value value)
  | .posOverflow => some (.tooBig value min max)
  | .negOverflow => some (.tooSmall value min max)
  | .zero => some (Error.invalid_value value)
  | .other => none

/-- Bounds of the machine integer type that Rust `from_str_radix`
operates on: `signed` tells whether a leading `-` is accepted, `min` and
`max` are the representable range. -/
structure IntTy where
  signed : Bool
  min : Int
  max : Int
deriving DecidableEq, Repr

/-- `char::to_digit(10)`: the value of a decimal digit.  48 and 57 are
the code points of the digits zero and nine. -/
def digitVal (c : Char) : Option Nat :=
  if 48 ≤ c.toNat ∧ c.toNat ≤ 57 then some (c.toNat - 48) else none

/-- Digit loop of Rust `from_str_radix` for a non-negative accumulator:
`result = result.checked_mul(10)?; result = result.checked_add(d)?`,
failing with `PosOverflow` when a step would exceed `t.max`.  The
accumulator stays within the machine range, so comparing the exact
integer against `t.max` is the machine overflow check. -/
def parseDigitsPos (t : IntTy) : Int → Str → Except IntErrorKind Int
  | acc, [] => .ok acc
  | acc, c :: cs =>
    match digitVal c with
    | none => .error .invalidDigit
    | some d =>
      let m := acc * 10
      if t.max < m then .error .posOverflow
      else if t.max < m + d then .error .posOverflow
      else parseDigitsPos t (m + d) cs

/-- Digit loop of Rust `from_str_radix` for a non-positive accumulator
(negative literal of a signed type): `checked_mul` then `checked_sub`,
failing with `NegOverflow` when a step would go below `t.min`. -/
def parseDigitsNeg (t : IntTy) : Int → Str → Except IntErrorKind Int
  | acc, [] => .ok acc
  | acc, c :: cs =>
    match digitVal c with
    | none => .error .invalidDigit
    | some d =>
      let m := acc * 10
      if m < t.min then .error .negOverflow
      else if m - d < t.min then .error .negOverflow
      else parseDigitsNeg t (m - d) cs

/-- Rust `<machine int>::from_str_radix(s, 10)` (what `s.parse::<$t>()`
calls): empty input is `Empty`; a leading `+` is skipped; a leading `-`
on a signed type switches to the negative accumulator; a sign with no
digits after it is `InvalidDigit`; on an unsigned type `-` falls through
to the digit loop and fails as `InvalidDigit`. -/
def fromStrRadix10 (t : IntTy) (s : Str) : Except IntErrorKind Int :=
  match s with
  | [] => .error .empty
  | c :: rest =>
    if c = '+' then
      if rest = [] then .error .invalidDigit else parseDigitsPos t 0 rest
    else if c = '-' ∧ t.signed then
      if rest = [] then .error .invalidDigit else parseDigitsNeg t 0 rest
    else parseDigitsPos t 0 s

/-- Rust `FromStr for NonZero<T>`: parse with the underlying type, then
reject the value zero with `IntErrorKind::Zero`. -/
def nonZeroFromStr (t : IntTy) (s : Str) : Except IntErrorKind Int :=
  match fromStrRadix10 t s with
  | .error k => .error k
  | .ok v => if v = 0 then .error .zero else .ok v

/-- One instantiation of the `impl_value_int!` macro
(src/src/lib.rs lines 163-181, 204-235): `base` is the machine type the
delegated `s.parse::<$t>()` runs on, `nonzero` whether `$t` is a
`NonZero*` type, and `minStr` / `maxStr` are `<$t>::MIN.to_string()` and
`<$t>::MAX.to_string()` (for `NonZero*` types these are the non-zero
MIN/MAX, not the machine bounds). -/
structure ValueIntTy where
  base : IntTy
  nonzero : Bool
  minStr : Str
  maxStr : Str
deriving DecidableEq, Repr

/-- Generated `parse` of `impl_value_int!`: delegate to `s.parse::<$t>()`
and map any failure through `Error::from_parse_int_error` with the type's
own MIN/MAX as bound strings.  The `none` branch of the mapping is the
`unreachable!` panic; the delegated parser only produces the five handled
kinds, so it is never taken. -/
def intParse (t : ValueIntTy) (s : Str) : PResult Int :=
  match (if t.nonzero then nonZeroFromStr t.base s else fromStrRadix10 t.base s) with
  | .ok v => .ok v
  | .error k =>
    match from_parse_int_error k s t.minStr t.maxStr with
    | some e => .err e
    | none => .panic

/-- Generated `validate` of `impl_value_int!`: run the same delegated
parse, discard the value, return no candidates. -/
def intValidate (t : ValueIntTy) (s : Str) : PResult (List Str) :=
  match (if t.nonzero then nonZeroFromStr t.base s else fromStrRadix10 t.base s) with
  | .ok _ => .ok []
  | .error k =>
    match from_parse_int_error k s t.minStr t.maxStr with
    | some e => .err e
    | none => .panic

/-! The 24 instantiations of `impl_value_int!` (src/src/lib.rs lines
204-235).  `usize` / `isize` are modelled at their 64-bit width.  For the
`NonZero*` types the delegated `FromStr` parses with the underlying
machine type's bounds while the displayed `MIN`/`MAX` strings are the
`NonZero*` type's own constants (unsigned minimum 1). -/

def u8T : ValueIntTy := ⟨⟨false, 0, 255⟩, false, "0".toList, "255".toList⟩

def u16T : ValueIntTy := ⟨⟨false, 0, 65535⟩, false, "0".toList, "65535".toList⟩

def u32T : ValueIntTy := ⟨⟨false, 0, 4294967295⟩, false, "0".toList, "4294967295".toList⟩

def u64T : ValueIntTy := ⟨⟨false, 0, 18446744073709551615⟩, false, "0".toList, "18446744073709551615".toList⟩

def u128T : ValueIntTy := ⟨⟨false, 0, 340282366920938463463374607431768211455⟩, false, "0".toList, "340282366920938463463374607431768211455".toList⟩

def usizeT : ValueIntTy := ⟨⟨false, 0, 18446744073709551615⟩, false, "0".toList, "18446744073709551615".toList⟩

def i8T : ValueIntTy := ⟨⟨true, -128, 127⟩, false, "-128".toList, "127".toList⟩

def i16T : ValueIntTy := ⟨⟨true, -32768, 32767⟩, false, "-32768".toList, "32767".toList⟩

def i32T : ValueIntTy := ⟨⟨true, -2147483648, 2147483647⟩, false, "-2147483648".toList, "2147483647".toList⟩

def i64T : ValueIntTy := ⟨⟨true, -9223372036854775808, 9223372036854775807⟩, false, "-9223372036854775808".toList, "9223372036854775807".toList⟩

def i128T : ValueIntTy := ⟨⟨true, -170141183460469231731687303715884105728, 170141183460469231731687303715884105727⟩, false, "-170141183460469231731687303715884105728".toList, "170141183460469231731687303715884105727".toList⟩

def isizeT : ValueIntTy := ⟨⟨true, -9223372036854775808, 9223372036854775807⟩, false, "-9223372036854775808".toList, "9223372036854775807".toList⟩

def nonZeroU8T : ValueIntTy := ⟨⟨false, 0, 255⟩, true, "1".toList, "255".toList⟩

def nonZeroU16T : ValueIntTy := ⟨⟨false, 0, 65535⟩, true, "1".toList, "65535".toList⟩

def nonZeroU32T : ValueIntTy := ⟨⟨false, 0, 4294967295⟩, true, "1".toList, "4294967295".toList⟩

def nonZeroU64T : ValueIntTy := ⟨⟨false, 0, 18446744073709551615⟩, true, "1".toList, "18446744073709551615".toList⟩

def nonZeroU128T : ValueIntTy := ⟨⟨false, 0, 340282366920938463463374607431768211455⟩, true, "1".toList, "340282366920938463463374607431768211455".toList⟩

def nonZeroUsizeT : ValueIntTy := ⟨⟨false, 0, 18446744073709551615⟩, true, "1".toList, "18446744073709551615".toList⟩

def nonZeroI8T : ValueIntTy := ⟨⟨true, -128, 127⟩, true, "-128".toList, "127".toList⟩

def nonZeroI16T : ValueIntTy := ⟨⟨true, -32768, 32767⟩, true, "-32768".toList, "32767".toList⟩

def nonZeroI32T : ValueIntTy := ⟨⟨true, -2147483648, 2147483647⟩, true, "-2147483648".toList, "2147483647".toList⟩

def nonZeroI64T : ValueIntTy := ⟨⟨true, -9223372036854775808, 9223372036854775807⟩, true, "-9223372036854775808".toList, "9223372036854775807".toList⟩

def nonZeroI128T : ValueIntTy := ⟨⟨true, -170141183460469231731687303715884105728, 170141183460469231731687303715884105727⟩, true, "-170141183460469231731687303715884105728".toList, "170141183460469231731687303715884105727".toList⟩

def nonZeroIsizeT : ValueIntTy := ⟨⟨true, -9223372036854775808, 9223372036854775807⟩, true, "-9223372036854775808".toList, "9223372036854775807".toList⟩

example : intParse u8T ("255".toList) = .ok 255 := by decide
example : intParse u8T ("256".toList) = .err (.tooBig ("256".toList) ("0".toList) ("255".toList)) := by decide
example : intParse u8T ("-1".toList) = .err (.invalidValue ("-1".toList)) := by decide
example : intParse u8T [] = .err .emptyValue := by decide
example : intParse nonZeroU8T ("0".toList) = .err (.invalidValue ("0".toList)) := by decide
example : intParse i8T ("-128".toList) = .ok (-128) := by decide
example : intParse i8T ("-129".toList) = .err (.tooSmall ("-129".toList) ("-128".toList) ("127".toList)) := by decide

def isDecDigit (c : Char) : Bool :=
  (digitVal c).isSome

/-- Strip one optional leading sign, as Rust float parsing does. -/
def stripSign (s : Str) : Str :=
  match s with
  | [] => []
  | c :: rest => if c = '+' ∨ c = '-' then rest else s

/-- Optional exponent part of the Rust float grammar: either nothing, or
`e`/`E`, an optional sign and at least one digit, reaching the end. -/
def checkExp (s : Str) : Bool :=
  match s with
  | [] => true
  | c :: rest =>
    if c = 'e' ∨ c = 'E' then
      let rest2 := stripSign rest
      rest2 ≠ [] ∧ rest2.all isDecDigit
    else false

/-- Number part of the Rust float grammar:
`Digit+ | Digit+ . Digit* | Digit* . Digit+`, then an optional exponent. -/
def checkNumber (s : Str) : Bool :=
  let intPart := s.takeWhile isDecDigit
  match s.dropWhile isDecDigit with
  | '.' :: r2 =>
    (intPart ≠ [] ∨ r2.takeWhile isDecDigit ≠ []) ∧
      checkExp (r2.dropWhile isDecDigit)
  | r1 => intPart ≠ [] ∧ checkExp r1

/-- Success domain of Rust `s.parse::<f32>()` / `s.parse::<f64>()` (the
standard library `FromStr` grammar that `impl_value_float!` delegates to):
an optional sign, then case-insensitive `inf` / `infinity` / `nan` or a
decimal number with optional fraction and exponent. -/
def rustFloatAccepts (s : Str) : Bool :=
  let body := stripSign s
  let low := toLowercase body
  low = ['i', 'n', 'f'] ∨
    low = ['i', 'n', 'f', 'i', 'n', 'i', 't', 'y'] ∨
    low = ['n', 'a', 'n'] ∨
    checkNumber body

/-- Generated `parse` of `impl_value_float!` (src/src/lib.rs lines
183-201): delegate to standard float parsing and collapse any failure to
`Error::invalid_value(s)`.  The numeric value itself plays no role in any
claim, so the model keeps only the success / failure outcome. -/
def floatParse (s : Str) : Except Error Unit :=
  if rustFloatAccepts s then .ok () else .error (Error.invalid_value s)

/-- Generated `validate` of `impl_value_float!`: same delegated parse,
value discarded, no candidates on success. -/
def floatValidate (s : Str) : Except Error (List Str) :=
  if rustFloatAccepts s then .ok [] else .error (Error.invalid_value s)

/-- The enum of src/tests/derive.rs lines 3-13, which derives `CVarEnum`. -/
inductive GameModes where
  | captureTheFlag
  | teamDeathMatch
  | freeForAll
  | controlPoint
deriving DecidableEq, Repr

/-- The candidate table the derive macro builds for `GameModes`
(src/proc/src/lib.rs lines 44-70): for each variant in declaration order,
the variant identifier rendered to snake case, then each `alias` literal
rendered to snake case, in attribute order. -/
def gameModesTable : List (GameModes × Str) :=
  [(.captureTheFlag, "capture_the_flag".toList),
   (.captureTheFlag, "ctf".toList),
   (.teamDeathMatch, "team_death_match".toList),
   (.teamDeathMatch, "tdm".toList),
   (.freeForAll, "free_for_all".toList),
   (.freeForAll, "ffa".toList),
   (.controlPoint, "control_point".toList),
   (.controlPoint, "cp".toList)]

/-- The `VALUES` array of the generated `validate` (src/proc/src/lib.rs
lines 88-92): the candidate names in table order. -/
def gameModesNames : List Str :=
  gameModesTable.map Prod.snd

/-- The generated `parse` for `GameModes` (src/proc/src/lib.rs lines
75-85): one match arm per table entry in table order, then the `""` arm
returning `EmptyValue`, then the catch-all returning `InvalidValue`. -/
def gameModesParse (s : Str) : Except Error GameModes :=
  if s = "capture_the_flag".toList then .ok .captureTheFlag
  else if s = "ctf".toList then .ok .captureTheFlag
  else if s = "team_death_match".toList then .ok .teamDeathMatch
  else if s = "tdm".toList then .ok .teamDeathMatch
  else if s = "free_for_all".toList then .ok .freeForAll
  else if s = "ffa".toList then .ok .freeForAll
  else if s = "control_point".toList then .ok .controlPoint
  else if s = "cp".toList then .ok .controlPoint
  else if s = [] then .error .emptyValue
  else .error (Error.invalid_value s)

/-- The generated `validate` for `GameModes` (src/proc/src/lib.rs lines
87-103): push every table name that starts with the prefix, in table
order. -/
def gameModesValidate (s : Str) : Except Error (List Str) :=
  .ok (pushMatching gameModesNames s)

example : gameModesParse ("ctf".toList) = .ok .captureTheFlag := by decide
example : gameModesParse [] = .error .emptyValue := by decide
example : gameModesParse ("zzz".toList) = .error (.invalidValue ("zzz".toList)) := by decide
example : gameModesValidate ['c'] = .ok ["capture_the_flag".toList, "ctf".toList, "control_point".toList, "cp".toList] := by decide
example : floatParse ("1.5e3".toList) = .ok () := by decide
example : floatParse ("abc".toList) = .error (.invalidValue ("abc".toList)) := by decide

/-! Shared cvar container.  src/src/lib.rs lines 39-48 declare
`#[derive(Clone)] pub struct CVar<T>(Arc<InnerCVar<T>>)` with
`InnerCVar { name, description, value: RwLock<T> }` but no methods, so the
container operations are modelled from the spec against an explicit heap
of reference-counted cells: a handle is an index into the heap, `Clone`
bumps the refcount of the same cell, and read / write go through the
index. -/

def getCell {α : Type} : List α → Nat → Option α
  | [], _ => none
  | c :: _, 0 => some c
  | _ :: cs, n + 1 => getCell cs n

def setCell {α : Type} : List α → Nat → α → List α
  | [], _, _ => []
  | _ :: cs, 0, v => v :: cs
  | c :: cs, n + 1, v => c :: setCell cs n v

def bumpAt : List Nat → Nat → List Nat
  | [], _ => []
  | c :: cs, 0 => (c + 1) :: cs
  | c :: cs, n + 1 => c :: bumpAt cs n

/-- One allocated `InnerCVar<T>`: immutable name and description and the
current value behind the lock. -/
structure InnerCVar (T : Type) where
  name : Str
  description : Str
  value : T

/-- The heap of `Arc`-allocated cells together with their reference
counts. -/
structure ArcHeap (T : Type) where
  cells : List (InnerCVar T)
  counts : List Nat

/-- A `CVar<T>` handle: the index of the shared cell it points at. -/
structure CVarHandle where
  id : Nat
deriving DecidableEq, Repr

/-- Modelled from the spec: `init(initial_value)` (§4.3) allocates a new
shared cell holding the initial value with reference count one and
returns a handle to it. -/
def cvarInit {T : Type} (h : ArcHeap T) (name description : Str) (v : T) :
    ArcHeap T × CVarHandle :=
  (⟨h.cells ++ [⟨name, description, v⟩], h.counts ++ [1]⟩, ⟨h.cells.length⟩)

/-- Modelled from the spec: `duplicate(handle)` (§4.3), the
`#[derive(Clone)]` of `CVar<T>`, i.e. `Arc::clone`: increment the cell's
reference count and return a handle with the same cell index; no cell is
copied or allocated. -/
def cvarDuplicate {T : Type} (h : ArcHeap T) (c : CVarHandle) :
    ArcHeap T × CVarHandle :=
  (⟨h.cells, bumpAt h.counts c.id⟩, ⟨c.id⟩)

/-- Modelled from the spec: `write/mutate` (§4.3) replaces the value held
by the handle's cell under the write lock. -/
def cvarWrite {T : Type} (h : ArcHeap T) (c : CVarHandle) (v : T) :
    ArcHeap T :=
  match getCell h.cells c.id with
  | none => h
  | some cell => ⟨setCell h.cells c.id ⟨cell.name, cell.description, v⟩, h.counts⟩

/-- Modelled from the spec: `read-lock` (§4.3) yields the current value of
the handle's cell. -/
def cvarRead {T : Type} (h : ArcHeap T) (c : CVarHandle) : Option T :=
  (getCell h.cells c.id).map InnerCVar.value

/-! Helper lemmas. -/

theorem foldl_push_eq_filter (p : Str → Bool) (l : List Str) :
    ∀ acc : List Str,
      l.foldl (fun values value => if p value then values ++ [value] else values) acc
        = acc ++ l.filter p := by
  induction l with
  | nil => intro acc; simp
  | cons x xs ih =>
    intro acc
    by_cases h : p x <;>
      simp [List.foldl_cons, List.filter_cons, h, ih]

theorem pushMatching_eq_filter (table : List Str) (s : Str) :
    pushMatching table s = table.filter (fun value => strStartsWith value s) := by
  unfold pushMatching
  simpa using foldl_push_eq_filter (fun value => strStartsWith value s) table []

theorem getCell_of_lt {α : Type} :
    ∀ (l : List α) (i : Nat), i < l.length → ∃ x, getCell l i = some x := by
  intro l
  induction l with
  | nil => intro i hi; simp at hi
  | cons c cs ih =>
    intro i hi
    match i with
    | 0 => exact ⟨c, rfl⟩
    | n + 1 => exact ih n (by simpa using hi)

theorem getCell_setCell {α : Type} :
    ∀ (l : List α) (i : Nat) (x : α), i < l.length →
      getCell (setCell l i x) i = some x := by
  intro l
  induction l with
  | nil => intro i x hi; simp at hi
  | cons c cs ih =>
    intro i x hi
    match i with
    | 0 => rfl
    | n + 1 => exact ih n x (by simpa using hi)

theorem getCell_bumpAt :
    ∀ (l : List Nat) (i : Nat),
      getCell (bumpAt l i) i = (getCell l i).map (fun n => n + 1) := by
  intro l
  induction l with
  | nil => intro i; rfl
  | cons c cs ih =>
    intro i
    match i with
    | 0 => rfl
    | n + 1 => exact ih n

theorem quoted_short_eq (s : Str) (h1 : strStartsWith s ['\"'] = true)
    (h2 : s.length < 2) : s = ['\"'] := by
  match s with
  | [] => simp [strStartsWith, List.isPrefixOf] at h1
  | [c] =>
    simp [strStartsWith, List.isPrefixOf] at h1
    subst h1
    rfl
  | a :: b :: t => simp at h2; omega

example : boolParse ['T'] = .ok true := by decide
example : boolParse [] = .error (Error.invalidValue []) := by decide
example : stringParse ['\"'] = .panic := by decide
example : stringParse ['\"', 'a', '\"'] = .ok ['a'] := by decide
example : boolValidate ['t'] = .ok [['t', 'r', 'u', 'e']] := by decide

/-! Claim theorems. -/

/-- Claim C1 (code bug): the claim states that every parse/validate
implementation returns an Error value on failure and never panics, and in
particular that `String::parse` returns `Err(InvalidValue)` on every input
that is not properly double-quoted.  The code violates this: on the
one-character input consisting of a single double-quote, `String::parse`
takes the quoted branch and evaluates the slice `&s[1..0]`, which panics.
This theorem evaluates the model at that failing input. -/
theorem c1_string_parse_panics_on_lone_quote :
    stringParse ['\"'] = PResult.panic := rfl

/-- Claim C2 counterexample: the claim states `bool::parse("")` returns
`EmptyValue`; in the code the empty string falls through every match arm
to `Err(Error::invalid_value(s))`, so the result is `InvalidValue`, not
`EmptyValue`. -/
theorem c2_counterexample :
    ¬ (boolParse [] = .error Error.emptyValue) := by decide

/-- Claim C2 (amended): `bool::parse` succeeds with the expected boolean
for every input in {t, f, T, F, true, false, TRUE, 0, 1}; `parse("")`
returns `InvalidValue` carrying the empty string (not `EmptyValue`);
`parse("yes")` and every other non-matching input return `InvalidValue`
carrying the input. -/
theorem c2_bool_parse_amended :
    (boolParse ['t'] = .ok true ∧ boolParse ['f'] = .ok false ∧
      boolParse ['T'] = .ok true ∧ boolParse ['F'] = .ok false ∧
      boolParse ("true".toList) = .ok true ∧
      boolParse ("false".toList) = .ok false ∧
      boolParse ("TRUE".toList) = .ok true ∧
      boolParse ['0'] = .ok false ∧ boolParse ['1'] = .ok true) ∧
    boolParse [] = .error (Error.invalidValue []) ∧
    boolParse ("yes".toList) = .error (Error.invalidValue ("yes".toList)) ∧
    ∀ s : Str, boolParse s = .ok true ∨ boolParse s = .ok false ∨
      boolParse s = .error (Error.invalidValue s) := by
  refine ⟨by decide, by decide, by decide, ?_⟩
  intro s
  unfold boolParse
  split_ifs <;> simp [Error.invalid_value]

/-- Claim C5: `Error::from_parse_int_error` maps empty input to
`EmptyValue`, an invalid digit to `InvalidValue`, a literal zero where
disallowed (the `NonZero*` parses) to `InvalidValue`, positive overflow to
`TooBig`, negative overflow to `TooSmall`, and any other kind to the
fatal `unreachable!` (modelled as `none`); the final conjunct shows the
`Zero` kind arising from a non-zero type parsing the literal `0`. -/
theorem c5_from_parse_int_error_mapping (value minS maxS : Str) :
    from_parse_int_error .empty value minS maxS = some .emptyValue ∧
    from_parse_int_error .invalidDigit value minS maxS
      = some (.invalidValue value) ∧
    from_parse_int_error .zero value minS maxS
      = some (.invalidValue value) ∧
    from_parse_int_error .posOverflow value minS maxS
      = some (.tooBig value minS maxS) ∧
    from_parse_int_error .negOverflow value minS maxS
      = some (.tooSmall value minS maxS) ∧
    from_parse_int_error .other value minS maxS = none ∧
    intParse nonZeroU8T ['0'] = .err (.invalidValue ['0']) :=
  ⟨rfl, rfl, rfl, rfl, rfl, rfl, by decide⟩

/-- Claim C5 witness: the mapping evaluated at concrete strings. -/
theorem c5_witness :
    from_parse_int_error .posOverflow ("256".toList) ("0".toList) ("255".toList)
      = some (.tooBig ("256".toList) ("0".toList) ("255".toList)) :=
  (c5_from_parse_int_error_mapping ("256".toList) ("0".toList) ("255".toList)).2.2.2.1

/-- Claim C6: for booleans and the derived enum, `validate(prefix)`
returns exactly the candidate names that start with the prefix, in the
deterministic table order, and the tables are the source declaration
order: `["true", "false"]` for booleans, and for `GameModes` the variants
in declaration order with each variant's aliases following its own
identifier.  No sorting is applied: the result is the order-preserving
filter of the declaration-order table. -/
theorem c6_validate_order (s : Str) :
    boolValidate s = .ok (boolValues.filter (fun v => strStartsWith v s)) ∧
    gameModesValidate s
      = .ok (gameModesNames.filter (fun v => strStartsWith v s)) ∧
    boolValues = ["true".toList, "false".toList] ∧
    gameModesNames =
      ["capture_the_flag".toList, "ctf".toList, "team_death_match".toList,
       "tdm".toList, "free_for_all".toList, "ffa".toList,
       "control_point".toList, "cp".toList] := by
  refine ⟨?_, ?_, by decide, by decide⟩
  · unfold boolValidate
    rw [pushMatching_eq_filter]
  · unfold gameModesValidate
    rw [pushMatching_eq_filter]

/-- Claim C10: `bool::validate` and the derived enum `validate` return
`Ok` on every input (the `Error` branch is never taken), and a
non-matching prefix yields `Ok` with an empty candidate list rather than
an error. -/
theorem c10_enumerable_validate_total (s : Str) :
    (∃ l, boolValidate s = .ok l) ∧
    (∃ l, gameModesValidate s = .ok l) ∧
    boolValidate ("zzz".toList) = .ok [] ∧
    gameModesValidate ("zzz".toList) = .ok [] :=
  ⟨⟨pushMatching boolValues s, rfl⟩,
   ⟨pushMatching gameModesNames s, rfl⟩, by decide, by decide⟩

/-- Claim C8: for every `impl_value_int!` instantiation (integers and
non-zero integers) and for floats, `validate` performs the same parse as
`parse` and discards the value: it returns `Ok([])` exactly when `parse`
succeeds and propagates the identical `Error` (or the identical
unreachable panic) otherwise. -/
theorem c8_validate_is_parse_discard (t : ValueIntTy) (s : Str) :
    intValidate t s = (intParse t s).map (fun _ => ([] : List Str)) ∧
    floatValidate s = Except.map (fun _ => ([] : List Str)) (floatParse s) := by
  constructor
  · unfold intValidate intParse
    cases hc : (if t.nonzero then nonZeroFromStr t.base s else fromStrRadix10 t.base s) with
    | ok v => simp [PResult.map]
    | error k =>
      cases hm : from_parse_int_error k s t.minStr t.maxStr <;>
        simp [hm, PResult.map]
  · unfold floatValidate floatParse
    by_cases h : rustFloatAccepts s = true <;> simp [h, Except.map]

/-- The three bound checks of claim C4 for one integer type: parsing the
rendered `MAX` returns `MAX`, parsing one past `MAX` fails with `TooBig`
carrying the type's own `MIN`/`MAX` strings, and parsing the empty string
fails with `EmptyValue`. -/
abbrev C4RoundTrip (t : ValueIntTy) (maxVal : Int) (maxS pastS : Str) : Prop :=
  intParse t maxS = .ok maxVal ∧
  intParse t pastS = .err (.tooBig pastS t.minStr t.maxStr) ∧
  intParse t [] = .err .emptyValue

/-- Claim C4's unsigned check: `parse("-1")` fails (with `InvalidValue`,
since `-` is an invalid digit for an unsigned type). -/
abbrev C4Unsigned (t : ValueIntTy) : Prop :=
  intParse t ("-1".toList) = .err (.invalidValue ("-1".toList))

/-- The 24 `impl_value_int!` instantiations with, for each, the type's
maximum value and the decimal renderings of `MAX` and `MAX + 1`. -/
def c4Cases : List (ValueIntTy × Int × Str × Str) :=
  [(u8T, 255, "255".toList, "256".toList),
   (u16T, 65535, "65535".toList, "65536".toList),
   (u32T, 4294967295, "4294967295".toList, "4294967296".toList),
   (u64T, 18446744073709551615, "18446744073709551615".toList, "18446744073709551616".toList),
   (u128T, 340282366920938463463374607431768211455, "340282366920938463463374607431768211455".toList, "340282366920938463463374607431768211456".toList),
   (usizeT, 18446744073709551615, "18446744073709551615".toList, "18446744073709551616".toList),
   (i8T, 127, "127".toList, "128".toList),
   (i16T, 32767, "32767".toList, "32768".toList),
   (i32T, 2147483647, "2147483647".toList, "2147483648".toList),
   (i64T, 9223372036854775807, "9223372036854775807".toList, "9223372036854775808".toList),
   (i128T, 170141183460469231731687303715884105727, "170141183460469231731687303715884105727".toList, "170141183460469231731687303715884105728".toList),
   (isizeT, 9223372036854775807, "9223372036854775807".toList, "9223372036854775808".toList),
   (nonZeroU8T, 255, "255".toList, "256".toList),
   (nonZeroU16T, 65535, "65535".toList, "65536".toList),
   (nonZeroU32T, 4294967295, "4294967295".toList, "4294967296".toList),
   (nonZeroU64T, 18446744073709551615, "18446744073709551615".toList, "18446744073709551616".toList),
   (nonZeroU128T, 340282366920938463463374607431768211455, "340282366920938463463374607431768211455".toList, "340282366920938463463374607431768211456".toList),
   (nonZeroUsizeT, 18446744073709551615, "18446744073709551615".toList, "18446744073709551616".toList),
   (nonZeroI8T, 127, "127".toList, "128".toList),
   (nonZeroI16T, 32767, "32767".toList, "32768".toList),
   (nonZeroI32T, 2147483647, "2147483647".toList, "2147483648".toList),
   (nonZeroI64T, 9223372036854775807, "9223372036854775807".toList, "9223372036854775808".toList),
   (nonZeroI128T, 170141183460469231731687303715884105727, "170141183460469231731687303715884105727".toList, "170141183460469231731687303715884105728".toList),
   (nonZeroIsizeT, 9223372036854775807, "9223372036854775807".toList, "9223372036854775808".toList)]

/-- The unsigned instantiations, on which `parse("-1")` must fail. -/
def c4UnsignedCases : List ValueIntTy :=
  [u8T, u16T, u32T, u64T, u128T, usizeT,
   nonZeroU8T, nonZeroU16T, nonZeroU32T, nonZeroU64T, nonZeroU128T,
   nonZeroUsizeT]

/-- Claim C4: for every integer type instantiated by `impl_value_int!`
(signed, unsigned and non-zero variants, with `usize`/`isize` at 64-bit
width), `parse(str(MAX))` returns `MAX`; parsing one past the upper bound
fails with `TooBig` carrying the type's own `MIN` and `MAX` strings (for
`NonZero*` types the non-zero `MIN`); `parse("-1")` on the unsigned types
fails; and `parse("")` fails with `EmptyValue`. -/
theorem c4_integer_bounds :
    (∀ x ∈ c4Cases, C4RoundTrip x.1 x.2.1 x.2.2.1 x.2.2.2) ∧
    ∀ t ∈ c4UnsignedCases, C4Unsigned t := by
  constructor
  · decide
  · decide

/-- Claim C4 witness: the bound checks applied to the `u8` entry. -/
theorem c4_witness :
    C4RoundTrip u8T 255 ("255".toList) ("256".toList) ∧ C4Unsigned u8T :=
  ⟨c4_integer_bounds.1 (u8T, 255, "255".toList, "256".toList) (by decide),
   c4_integer_bounds.2 u8T (by decide)⟩

/-- Claim C3: the generated `parse` for the derived enum `GameModes`
returns `Ok(v)` exactly when the input is one of `v`'s candidate names in
the table built from variant identifiers and aliases rendered to snake
case; empty input returns `EmptyValue`; any other input returns
`InvalidValue` carrying the input text. -/
theorem c3_enum_parse_table (s : Str) (v : GameModes) :
    (gameModesParse s = .ok v ↔ (v, s) ∈ gameModesTable) ∧
    gameModesParse [] = .error Error.emptyValue ∧
    (s ≠ [] → (∀ w : GameModes, (w, s) ∉ gameModesTable) →
      gameModesParse s = .error (Error.invalidValue s)) := by
  refine ⟨?_, by decide, ?_⟩
  · unfold gameModesParse
    split_ifs with h1 h2 h3 h4 h5 h6 h7 h8 h9
    · subst h1; cases v <;> decide
    · subst h2; cases v <;> decide
    · subst h3; cases v <;> decide
    · subst h4; cases v <;> decide
    · subst h5; cases v <;> decide
    · subst h6; cases v <;> decide
    · subst h7; cases v <;> decide
    · subst h8; cases v <;> decide
    · subst h9; cases v <;> decide
    · constructor
      · intro h
        exact h.elim
      · intro hmem
        exfalso
        simp [gameModesTable, Prod.ext_iff] at hmem
        tauto
  · intro hne hnm
    unfold gameModesParse
    split_ifs with h1 h2 h3 h4 h5 h6 h7 h8
    · subst h1; exact absurd (by decide) (hnm GameModes.captureTheFlag)
    · subst h2; exact absurd (by decide) (hnm GameModes.captureTheFlag)
    · subst h3; exact absurd (by decide) (hnm GameModes.teamDeathMatch)
    · subst h4; exact absurd (by decide) (hnm GameModes.teamDeathMatch)
    · subst h5; exact absurd (by decide) (hnm GameModes.freeForAll)
    · subst h6; exact absurd (by decide) (hnm GameModes.freeForAll)
    · subst h7; exact absurd (by decide) (hnm GameModes.controlPoint)
    · subst h8; exact absurd (by decide) (hnm GameModes.controlPoint)
    · rfl

/-- Claim C3 witness: the characterization applied at concrete inputs. -/
theorem c3_witness :
    gameModesParse ("zzz".toList) = .error (Error.invalidValue ("zzz".toList)) :=
  (c3_enum_parse_table ("zzz".toList) GameModes.captureTheFlag).2.2
    (by decide) (fun w => by cases w <;> decide)

/-- Claim C7 (code bug): the claim says `String::parse` succeeds exactly
on input wrapped in a double-quote on both ends, returning the interior,
and returns `InvalidValue` otherwise.  That characterization holds for
every input except the single-character input `"`, where the code panics
(slice `1..0`) instead of returning either outcome. -/
theorem c7_string_parse_quoted (s : Str) (hs : s ≠ ['\"']) :
    stringParse ['\"'] = PResult.panic ∧
    stringParse s =
      (if strStartsWith s ['\"'] ∧ strEndsWith s ['\"'] then
        PResult.ok ((s.drop 1).dropLast)
      else PResult.err (Error.invalid_value s)) := by
  refine ⟨rfl, ?_⟩
  unfold stringParse
  split_ifs with h1 h2
  · exact absurd (quoted_short_eq s h1.1 h2) hs
  · rfl
  · rfl

/-- Claim C7 witness: the quoted characterization evaluated at `"abc"`,
which parses to the interior `abc`. -/
theorem c7_witness :
    stringParse ("\"abc\"".toList) = PResult.ok ("abc".toList) := by
  have h := (c7_string_parse_quoted ("\"abc\"".toList) (by decide)).2
  rw [h]
  decide

/-- Claim C9: duplicating a cvar handle returns a handle with the same
cell index without touching any cell (a reference-count increment only:
exactly the duplicated cell's count goes up by one), and a write through
the duplicate is visible through the original handle. -/
theorem c9_duplicate_shares_cell {T : Type} (h : ArcHeap T) (c : CVarHandle)
    (v : T) (hc : c.id < h.cells.length) :
    ((cvarDuplicate h c).2 = c) ∧
    ((cvarDuplicate h c).1.cells = h.cells) ∧
    (getCell (cvarDuplicate h c).1.counts c.id
      = (getCell h.counts c.id).map (fun n => n + 1)) ∧
    (cvarRead (cvarWrite (cvarDuplicate h c).1 (cvarDuplicate h c).2 v) c
      = some v) := by
  refine ⟨rfl, rfl, getCell_bumpAt h.counts c.id, ?_⟩
  unfold cvarDuplicate cvarWrite cvarRead
  obtain ⟨cell, hcell⟩ := getCell_of_lt h.cells c.id hc
  simp [hcell, getCell_setCell h.cells c.id _ hc]

/-- Claim C9 witness: on a one-cell heap holding `false`, writing `true`
through the duplicate is read back through the original handle. -/
theorem c9_witness :
    cvarRead
      (cvarWrite (cvarDuplicate (⟨[⟨[], [], false⟩], [1]⟩ : ArcHeap Bool) ⟨0⟩).1
        (cvarDuplicate (⟨[⟨[], [], false⟩], [1]⟩ : ArcHeap Bool) ⟨0⟩).2 true)
      ⟨0⟩ = some true :=
  (c9_duplicate_shares_cell (⟨[⟨[], [], false⟩], [1]⟩ : ArcHeap Bool) ⟨0⟩ true
    (by decide)).2.2.2
